import Mathlib

/-!
Verification of the library-relocation planner of `macdeploycc.py`
(CloudCompare macOS bundler).

The Python code is shallowly embedded: `pathlib.Path` values are modelled
as their component lists (as returned by `Path.parts`, so an absolute path
starts with the component "/"), the filesystem and the `otool` output of
each binary are an explicit `Env` record, and the `while` loop of
`create_relocation_plan` is a fuel-indexed step function (the Python loop
has no termination guarantee, so the embedding returns `none` when the
fuel runs out, meaning the loop is still running).  Symlinks are not
modelled (`Path.resolve` only normalizes ".." components here), matching
the planner's stated intent of not following symlinks when resolving
`@rpath` dependencies.
-/

/-- Model of `pathlib.Path`: the tuple `Path.parts`.  An absolute path has
"/" as its first component, e.g. `/usr/lib/libz.dylib` is
`["/", "usr", "lib", "libz.dylib"]`, while `@rpath/libA.dylib` is
`["@rpath", "libA.dylib"]`. -/
structure FsPath where
  parts : List String
deriving DecidableEq

/-- Model of `str(path)`: "/" followed by the remaining components joined
with "/" for an absolute path, the components joined with "/" otherwise. -/
def FsPath.toStr (p : FsPath) : String :=
  match p.parts with
  | "/" :: rest => "/" ++ String.intercalate "/" rest
  | ps => String.intercalate "/" ps

/-- Model of `Path.name`: the last component (and "" for the root path,
as in pathlib). -/
def FsPath.name (p : FsPath) : String :=
  match p.parts with
  | ["/"] => ""
  | ps => (ps.getLast?).getD ""

/-- Model of `Path.parent` (also `Path.parents[0]`): drop the last
component; the parent of the root is the root, and the parent of a
one-component relative path is `Path(".")` whose `parts` tuple is empty. -/
def FsPath.parent (p : FsPath) : FsPath :=
  match p.parts with
  | [] => ⟨[]⟩
  | ["/"] => ⟨["/"]⟩
  | [_] => ⟨[]⟩
  | ps => ⟨ps.dropLast⟩

/-- Model of `path / name` (joining a single file name). -/
def FsPath.join (p : FsPath) (s : String) : FsPath :=
  ⟨p.parts ++ [s]⟩

/-- Component-wise normalization performed by `Path.resolve()` on the
inputs appearing in this program: "." is dropped and ".." removes the
previous component (the model has no symlinks). -/
def normParts (ps : List String) : List String :=
  ps.foldl
    (fun acc c =>
      if c = ".." then
        match acc with
        | [] => []
        | ["/"] => ["/"]
        | _ => acc.dropLast
      else if c = "." then acc
      else acc ++ [c])
    []

/-- String prefix test, modelling Python's `str.startswith`. -/
def strHasPre (pre s : String) : Bool :=
  pre.data.isPrefixOf s.data

/-- Embedding of `is_system_lib` (macdeploycc.py lines 51-58): a library
is a system library when its immediate parent directory is exactly
`/usr/lib`, or when its path string starts with "/System". -/
def is_system_lib (lib : FsPath) : Bool :=
  if lib.parent = ⟨["/", "usr", "lib"]⟩ then true
  else if strHasPre "/System" lib.toStr then true
  else false

/-- Predicate of the filter performed by `list_sublibs_to_relocate`
(macdeploycc.py lines 61-80): system libraries are skipped, and an
`@rpath`-prefixed dependency whose second component (the library or
framework-folder name) is already present in the app's Frameworks folder
is skipped; everything else is relocatable.  (Python indexes `parts[1]`
directly; a bare "@rpath" with no second component would raise
`IndexError` there and is not modelled.) -/
def relocLib (libs_in_app_rpath : List String) (lib : FsPath) : Bool :=
  if is_system_lib lib then false
  else
    match lib.parts with
    | "@rpath" :: nm :: _ => if nm ∈ libs_in_app_rpath then false else true
    | _ => true

/-- Embedding of `list_sublibs_to_relocate` (macdeploycc.py lines 61-80). -/
def list_sublibs_to_relocate (libs : List FsPath) (libs_in_app_rpath : List String) :
    List FsPath :=
  libs.filter (relocLib libs_in_app_rpath)

/-- Embedding of the `CopyLib` action dataclass (lines 92-95). -/
structure CopyLib where
  src : FsPath
  dst : FsPath
deriving DecidableEq

/-- Embedding of the `LoadPathChange` action dataclass (lines 97-101).
The `new` field receives the string `f"@rpath/{sublib.name}"` in Python;
it is modelled as the two-component path it denotes. -/
structure LoadPathChange where
  lib : FsPath
  old : FsPath
  new : FsPath
deriving DecidableEq

/-- Embedding of the `RemoveAllRpath` action dataclass (lines 87-89). -/
structure RemoveAllRpath where
  lib : FsPath
deriving DecidableEq

/-- Embedding of `resolve_rpath` (lines 104-107): an
`@executable_path`-prefixed search path is rewritten against the
directory of the executable and canonicalized; any other search path is
returned unchanged. -/
def resolve_rpath (rpath : FsPath) (executable_path : FsPath) : FsPath :=
  if rpath.parts.head? = some "@executable_path" then
    ⟨normParts (executable_path.parent.parts ++ rpath.parts.drop 1)⟩
  else rpath

/-- The part of `AppBundleInfo` (lines 110-116) that the planner reads:
the main executable path (`lib_info.path`), the Frameworks folder path,
and the names of the libraries already present in that folder
(`libs_in_rpath`). -/
structure AppInfo where
  exePath : FsPath
  frameworksPath : FsPath
  libsInRpath : List String
deriving DecidableEq

/-- Embedding of `resolve_load_path` (lines 124-127): like
`resolve_rpath` but substituting the directory of the app executable. -/
def resolve_load_path (load_path : FsPath) (app : AppInfo) : FsPath :=
  if load_path.parts.head? = some "@executable_path" then
    ⟨normParts (app.exePath.parent.parts ++ load_path.parts.drop 1)⟩
  else load_path

/-- Embedding of the `Node` class (lines 118-121). -/
structure Node where
  path : FsPath
  depth : Nat
deriving DecidableEq

/-- The environment the planner runs against: for each binary path, the
`otool -l` data (`loaded_libs`, `rpaths`) that `Library.from_path` would
extract; for each directory, its `iterdir` listing as file names; and the
set of existing file paths (for `Path.exists`). -/
structure Env where
  binaries : List (FsPath × (List FsPath × List FsPath))
  dirs : List (FsPath × List String)
  existing : List FsPath
deriving DecidableEq

/-- Model of `Library.from_path` (lines 21-48) as a lookup of the binary's
load commands in the environment. -/
def getLibrary (env : Env) (p : FsPath) : List FsPath × List FsPath :=
  ((env.binaries.find? fun e => decide (e.1 = p)).map (fun e => e.2)).getD ([], [])

/-- Model of `Path.is_dir`/`Path.iterdir`: the directory's name listing,
when the directory exists. -/
def lookupDir (env : Env) (p : FsPath) : Option (List String) :=
  (env.dirs.find? fun e => decide (e.1 = p)).map (fun e => e.2)

/-- The errors the planner can raise: the `RuntimeError` of line 179 when
no known search path holds the dependency, the `assert len(sublib.parts)
== 2` of line 170, and the `assert resolved_path.exists()` of line 184. -/
inductive RelocErr where
  | unresolved : FsPath → RelocErr
  | assertTwoParts : FsPath → RelocErr
  | missingFile : FsPath → RelocErr
deriving DecidableEq

/-- Embedding of the `@rpath` resolution loop of `create_relocation_plan`
(lines 168-179): iterate the accumulated `lib_names_in_rpaths` mapping in
insertion order; on each entry first assert that the specifier has
exactly two components, then take the first entry whose listing contains
the file name; the `for`/`else` raises when the mapping is empty or no
entry matches.  The winning resolution replaces the literal "@rpath"
component by the directory (line 176, a string replacement that does not
follow symlinks). -/
def resolveRpathSublib (m : List (FsPath × List String)) (sub : FsPath) :
    Except RelocErr FsPath :=
  match m with
  | [] => Except.error (RelocErr.unresolved sub)
  | _ :: _ =>
    if sub.parts.length = 2 then
      match m.find? (fun e => decide (sub.parts.getD 1 "" ∈ e.2)) with
      | some e => Except.ok (e.1.join (sub.parts.getD 1 ""))
      | none => Except.error (RelocErr.unresolved sub)
    else Except.error (RelocErr.assertTwoParts sub)

/-- Resolution of one relocatable dependency (lines 167-184): the
`@rpath` branch scans the accumulated search-path mapping, any other
specifier goes through `resolve_load_path`; in both cases the resolved
path must exist on disk (the assert of line 184). -/
def resolveSublib (env : Env) (app : AppInfo) (m : List (FsPath × List String))
    (sub : FsPath) : Except RelocErr FsPath :=
  match
    (if sub.parts.head? = some "@rpath" then resolveRpathSublib m sub
     else Except.ok (resolve_load_path sub app)) with
  | Except.error e => Except.error e
  | Except.ok resolved =>
    if resolved ∈ env.existing then Except.ok resolved
    else Except.error (RelocErr.missingFile resolved)

/-- One Python dict assignment `d[k] = v`: overwrite in place when the
key is present, append otherwise (dict insertion order is preserved). -/
def insertDir (m : List (FsPath × List String)) (k : FsPath) (v : List String) :
    List (FsPath × List String) :=
  if m.any (fun e => decide (e.1 = k)) then
    m.map (fun e => if e.1 = k then (k, v) else e)
  else m ++ [(k, v)]

/-- Embedding of the search-path harvesting loop (lines 154-158): each
search path of the binary being visited is resolved against the app
executable and, when that directory exists, its listing is recorded in
the accumulated mapping.  (The Python guard `if rpath not in
lib_names_in_rpaths` compares a `Path` against the dict's `str` keys and
is therefore always true, so it is not modelled.) -/
def addRpaths (env : Env) (app : AppInfo) (m : List (FsPath × List String))
    (rpaths : List FsPath) : List (FsPath × List String) :=
  rpaths.foldl
    (fun acc r =>
      let r2 := resolve_rpath r app.exePath
      match lookupDir env r2 with
      | some listing => insertDir acc r2 listing
      | none => acc)
    m

/-- `min_depth_for_copy` (line 140). -/
def minDepthForCopy : Nat := 1

/-- The canonical specifier written by the planner:
`f"@rpath/{sublib.name}"` (line 199). -/
def rpathSpec (nm : String) : FsPath :=
  ⟨["@rpath", nm]⟩

/-- The mutable state of `create_relocation_plan`'s while loop: the
accumulated search-path mapping, the worklist (`libs_to_analyze`, a
stack: the head of this list is the element Python's `list.pop()`
removes), and the three action lists. -/
structure PlanState where
  rpathMap : List (FsPath × List String)
  worklist : List Node
  copies : List CopyLib
  updates : List LoadPathChange
  removals : List RemoveAllRpath
deriving DecidableEq

/-- Embedding of the `for sublib in sublibs_to_relocate` loop (lines
167-208): resolve each relocatable dependency, and (the depth of a
dependency being always at least `min_depth_for_copy`) emit the copy,
load-path-update and rpath-removal actions and push the new node.  The
update targets the Frameworks copy of the dependent binary when the
dependent itself is scheduled for copying (depth >= 1), and the
dependent's own path when it is the root (depth 0). -/
def processSublibs (env : Env) (app : AppInfo) (cur : Node) :
    List FsPath → PlanState → Except RelocErr PlanState
  | [], s => Except.ok s
  | sub :: rest, s =>
    match resolveSublib env app s.rpathMap sub with
    | Except.error e => Except.error e
    | Except.ok resolved =>
      if minDepthForCopy ≤ cur.depth + 1 then
        let c : CopyLib := ⟨resolved, app.frameworksPath.join resolved.name⟩
        let u : LoadPathChange :=
          ⟨if minDepthForCopy ≤ cur.depth then app.frameworksPath.join cur.path.name
            else cur.path,
           sub, rpathSpec sub.name⟩
        let r : RemoveAllRpath := ⟨c.dst⟩
        processSublibs env app cur rest
          { s with
            copies := s.copies ++ [c]
            updates := s.updates ++ [u]
            removals := s.removals ++ [r]
            worklist := ⟨resolved, cur.depth + 1⟩ :: s.worklist }
      else processSublibs env app cur rest s

/-- One iteration of the while loop body (lines 148-208) applied to the
popped node `cur`: read the binary's load commands, harvest its search
paths into the mapping, filter its relocatable dependencies and process
them. -/
def stepNode (env : Env) (app : AppInfo) (cur : Node) (s : PlanState) :
    Except RelocErr PlanState :=
  let lib := getLibrary env cur.path
  let subs := list_sublibs_to_relocate lib.1 app.libsInRpath
  processSublibs env app cur subs { s with rpathMap := addRpaths env app s.rpathMap lib.2 }

/-- The planner's result value (the tuple returned at line 211). -/
structure Plan where
  copies : List CopyLib
  updates : List LoadPathChange
  removals : List RemoveAllRpath
deriving DecidableEq

/-- Fuel-indexed embedding of the `while libs_to_analyze` loop (lines
148-209): `none` means the fuel ran out with the loop still running. -/
def planFuel (env : Env) (app : AppInfo) : Nat → PlanState → Option (Except RelocErr Plan)
  | 0, _ => none
  | n + 1, s =>
    match s.worklist with
    | [] => some (Except.ok ⟨s.copies, s.updates, s.removals⟩)
    | cur :: rest =>
      match stepNode env app cur { s with worklist := rest } with
      | Except.error e => some (Except.error e)
      | Except.ok s2 => planFuel env app n s2

/-- The initial loop state (lines 141-146): empty mapping, the root
binary at depth 0 on the worklist, no actions. -/
def initState (root : FsPath) : PlanState :=
  ⟨[], [⟨root, 0⟩], [], [], []⟩

/-- Embedding of `create_relocation_plan` (lines 131-211), fuel-indexed. -/
def create_relocation_plan (env : Env) (app : AppInfo) (root : FsPath) (fuel : Nat) :
    Option (Except RelocErr Plan) :=
  planFuel env app fuel (initState root)

/-- Embedding of the plan aggregation in `main` (lines 230-251): copy and
load-path actions of the executable and of every plugin are concatenated,
but `all_rpath_removals.extend(rpah_actions)` stands outside the plugin
loop, so the removal actions kept are the executable's (line 237)
followed by those of the last value bound to `rpah_actions` — the last
plugin when there is one, the executable's own again otherwise. -/
def aggregatePlans (execPlan : Plan) (pluginPlans : List Plan) : Plan :=
  let lastPlan :=
    match pluginPlans.getLast? with
    | some q => q
    | none => execPlan
  { copies := execPlan.copies ++ (pluginPlans.map Plan.copies).flatten
    updates := execPlan.updates ++ (pluginPlans.map Plan.updates).flatten
    removals := execPlan.removals ++ lastPlan.removals }

/-- The side effects the executor performs, in order. -/
inductive Effect where
  | copyFile : FsPath → FsPath → Effect
  | changeLoadPath : FsPath → FsPath → FsPath → Effect
  | deleteRpath : FsPath → FsPath → Effect
deriving DecidableEq

/-- Embedding of the three executor phases of `main` (lines 253-278):
first every copy (skipped when source equals destination), then every
`install_name_tool -change old new lib`, then for every removal action
the `install_name_tool -delete_rpath` calls for each search path the
target binary declares (re-inspected in `env`, the post-copy
filesystem). -/
def executeActions (env : Env) (agg : Plan) : List Effect :=
  (agg.copies.filterMap fun c =>
    if c.src = c.dst then none else some (Effect.copyFile c.src c.dst))
  ++ (agg.updates.map fun u => Effect.changeLoadPath u.old u.new u.lib)
  ++ (agg.removals.map fun r =>
        ((getLibrary env r.lib).2.map fun rp => Effect.deleteRpath rp r.lib)).flatten

/-- Shorthand for building a path from its components. -/
def fp (ps : List String) : FsPath := ⟨ps⟩

/-! ### Fixture: a dependency cycle among relocatable libraries (C1)

`/app/CC` loads `/opt/libA.dylib`, which loads `/opt/libB.dylib`, which
loads `/opt/libA.dylib` back.  None is a system library and none is
already bundled, so every edge is relocatable. -/

def cycRoot : FsPath := fp ["/", "app", "CC"]

def cycA : FsPath := fp ["/", "opt", "libA.dylib"]

def cycB : FsPath := fp ["/", "opt", "libB.dylib"]

def cycApp : AppInfo := ⟨cycRoot, fp ["/", "app", "Frameworks"], []⟩

def cycEnv : Env :=
  ⟨[(cycRoot, ([cycA], [])), (cycA, ([cycB], [])), (cycB, ([cycA], []))],
   [], [cycA, cycB]⟩

/-! ### Fixture: a diamond-shaped dependency graph (C2)

`/app/CC` loads `/opt/libA.dylib` and `/opt/libB.dylib`; each of those
loads `/opt/libC.dylib`, so libC is reachable through two different
dependent binaries. -/

def diaRoot : FsPath := fp ["/", "app", "CC"]

def diaA : FsPath := fp ["/", "opt", "libA.dylib"]

def diaB : FsPath := fp ["/", "opt", "libB.dylib"]

def diaC : FsPath := fp ["/", "opt", "libC.dylib"]

def diaApp : AppInfo := ⟨diaRoot, fp ["/", "app", "Frameworks"], []⟩

def diaEnv : Env :=
  ⟨[(diaRoot, ([diaA, diaB], [])), (diaA, ([diaC], [])), (diaB, ([diaC], [])),
    (diaC, ([], []))],
   [], [diaA, diaB, diaC]⟩

/-- The copy action the diamond plan emits for libC. -/
def diaCopyC : CopyLib := ⟨diaC, fp ["/", "app", "Frameworks", "libC.dylib"]⟩

/-- The plan the planner produces on `diaEnv`: libC, reachable through
both libA and libB, is scheduled for copying twice. -/
def diaPlan : Plan :=
  ⟨[⟨diaA, fp ["/", "app", "Frameworks", "libA.dylib"]⟩,
    ⟨diaB, fp ["/", "app", "Frameworks", "libB.dylib"]⟩, diaCopyC, diaCopyC],
   [⟨diaRoot, diaA, rpathSpec "libA.dylib"⟩,
    ⟨diaRoot, diaB, rpathSpec "libB.dylib"⟩,
    ⟨fp ["/", "app", "Frameworks", "libB.dylib"], diaC, rpathSpec "libC.dylib"⟩,
    ⟨fp ["/", "app", "Frameworks", "libA.dylib"], diaC, rpathSpec "libC.dylib"⟩],
   [⟨fp ["/", "app", "Frameworks", "libA.dylib"]⟩,
    ⟨fp ["/", "app", "Frameworks", "libB.dylib"]⟩,
    ⟨fp ["/", "app", "Frameworks", "libC.dylib"]⟩,
    ⟨fp ["/", "app", "Frameworks", "libC.dylib"]⟩]⟩

/-! ### Fixture: executable plan plus two plugin plans (C3) -/

def rm0 : RemoveAllRpath := ⟨fp ["/", "app", "Frameworks", "lib0.dylib"]⟩

def rm1 : RemoveAllRpath := ⟨fp ["/", "app", "Frameworks", "lib1.dylib"]⟩

def rm2 : RemoveAllRpath := ⟨fp ["/", "app", "Frameworks", "lib2.dylib"]⟩

def cp0 : CopyLib := ⟨fp ["/", "o", "lib0.dylib"], fp ["/", "app", "Frameworks", "lib0.dylib"]⟩

def cp1 : CopyLib := ⟨fp ["/", "o", "lib1.dylib"], fp ["/", "app", "Frameworks", "lib1.dylib"]⟩

def cp2 : CopyLib := ⟨fp ["/", "app", "Frameworks", "lib2.dylib"], fp ["/", "app", "Frameworks", "lib2.dylib"]⟩

def up0 : LoadPathChange := ⟨fp ["/", "app", "CC"], fp ["/", "o", "lib0.dylib"], rpathSpec "lib0.dylib"⟩

/-- Plan produced for the main executable. -/
def execPlan3 : Plan := ⟨[cp0], [up0], [rm0]⟩

/-- Plan produced for the first plugin. -/
def plugPlan1 : Plan := ⟨[cp1], [], [rm1]⟩

/-- Plan produced for the second (last) plugin. -/
def plugPlan2 : Plan := ⟨[cp2], [], [rm2]⟩

/-- Post-copy filesystem for the executor: each copied library still
declares one build-tree search path to be stripped. -/
def env3 : Env :=
  ⟨[(fp ["/", "app", "Frameworks", "lib0.dylib"], ([], [fp ["/", "bt0"]])),
    (fp ["/", "app", "Frameworks", "lib1.dylib"], ([], [fp ["/", "bt1"]])),
    (fp ["/", "app", "Frameworks", "lib2.dylib"], ([], [fp ["/", "bt2"]]))],
   [], []⟩

/-! ### Fixture: an `@rpath` dependency resolvable both through the
declaring binary's own search path and through a search path declared by
an earlier-visited binary (C4)

The root declares search path `/rr`; its dependency `/ext/libA.dylib`
declares search path `/aa` and loads `@rpath/libS.dylib`; both `/rr` and
`/aa` contain a `libS.dylib`. -/

def r4 : FsPath := fp ["/", "app", "CC"]

def a4 : FsPath := fp ["/", "ext", "libA.dylib"]

def rr4 : FsPath := fp ["/", "rr"]

def aa4 : FsPath := fp ["/", "aa"]

def app4 : AppInfo := ⟨r4, fp ["/", "app", "Frameworks"], []⟩

def env4 : Env :=
  ⟨[(r4, ([a4], [rr4])), (a4, ([fp ["@rpath", "libS.dylib"]], [aa4]))],
   [(rr4, ["libS.dylib"]), (aa4, ["libS.dylib"])],
   [a4, fp ["/", "rr", "libS.dylib"], fp ["/", "aa", "libS.dylib"]]⟩

/-- The plan the planner produces on `env4`: the `@rpath/libS.dylib`
dependency declared by libA resolves through the root's search path
`/rr`, the first entry of the accumulated mapping, not through libA's own
search path `/aa`. -/
def plan4 : Plan :=
  ⟨[⟨a4, fp ["/", "app", "Frameworks", "libA.dylib"]⟩,
    ⟨fp ["/", "rr", "libS.dylib"], fp ["/", "app", "Frameworks", "libS.dylib"]⟩],
   [⟨r4, a4, rpathSpec "libA.dylib"⟩,
    ⟨fp ["/", "app", "Frameworks", "libA.dylib"], fp ["@rpath", "libS.dylib"],
     rpathSpec "libS.dylib"⟩],
   [⟨fp ["/", "app", "Frameworks", "libA.dylib"]⟩,
    ⟨fp ["/", "app", "Frameworks", "libS.dylib"]⟩]⟩

/-! ### Fixture: two distinct sources sharing a destination filename (C5) -/

def r5 : FsPath := fp ["/", "app", "CC"]

def p5a : FsPath := fp ["/", "e1", "libdup.dylib"]

def p5b : FsPath := fp ["/", "e2", "libdup.dylib"]

def app5 : AppInfo := ⟨r5, fp ["/", "app", "Frameworks"], []⟩

def env5 : Env := ⟨[(r5, ([p5a, p5b], []))], [], [p5a, p5b]⟩

/-- The plan the planner produces on `env5`. -/
def plan5 : Plan :=
  ⟨[⟨p5a, fp ["/", "app", "Frameworks", "libdup.dylib"]⟩,
    ⟨p5b, fp ["/", "app", "Frameworks", "libdup.dylib"]⟩],
   [⟨r5, p5a, rpathSpec "libdup.dylib"⟩, ⟨r5, p5b, rpathSpec "libdup.dylib"⟩],
   [⟨fp ["/", "app", "Frameworks", "libdup.dylib"]⟩,
    ⟨fp ["/", "app", "Frameworks", "libdup.dylib"]⟩]⟩

/-! ### Fixtures for the already-present skip (C6)

`libP.dylib` is listed in the bundle's Frameworks folder.  In `env6` the
root names it by absolute path `/ext/libP.dylib` (and libP loads
`/ext/libQ.dylib`); in `env6b` the root names it as `@rpath/libP.dylib`. -/

def r6 : FsPath := fp ["/", "app", "CC"]

def p6 : FsPath := fp ["/", "ext", "libP.dylib"]

def q6 : FsPath := fp ["/", "ext", "libQ.dylib"]

def app6 : AppInfo := ⟨r6, fp ["/", "app", "Frameworks"], ["libP.dylib"]⟩

def env6 : Env :=
  ⟨[(r6, ([p6], [])), (p6, ([q6], [])), (q6, ([], []))], [], [p6, q6]⟩

def env6b : Env :=
  ⟨[(r6, ([fp ["@rpath", "libP.dylib"]], [fp ["/", "rp6"]])),
    (fp ["/", "rp6", "libP.dylib"], ([q6], []))],
   [(fp ["/", "rp6"], ["libP.dylib"])],
   [fp ["/", "rp6", "libP.dylib"], q6]⟩

/-- The plan the planner produces on `env6`: the already-present
`libP.dylib`, named by absolute path, is still copied, and its own
dependency libQ is traversed and copied as well. -/
def plan6 : Plan :=
  ⟨[⟨p6, fp ["/", "app", "Frameworks", "libP.dylib"]⟩,
    ⟨q6, fp ["/", "app", "Frameworks", "libQ.dylib"]⟩],
   [⟨r6, p6, rpathSpec "libP.dylib"⟩,
    ⟨fp ["/", "app", "Frameworks", "libP.dylib"], q6, rpathSpec "libQ.dylib"⟩],
   [⟨fp ["/", "app", "Frameworks", "libP.dylib"]⟩,
    ⟨fp ["/", "app", "Frameworks", "libQ.dylib"]⟩]⟩

/-! ### Fixture: a relocatable framework-style dependency (C7)

The root loads `@rpath/QtGui.framework/Versions/5/QtGui` (five path
components) and the framework folder is not already bundled, so the
dependency survives the relocatable partition; the root also declares one
resolvable search path, so the accumulated mapping is non-empty. -/

def r7 : FsPath := fp ["/", "app", "CC"]

def fw7spec : FsPath := fp ["@rpath", "QtGui.framework", "Versions", "5", "QtGui"]

def app7 : AppInfo := ⟨r7, fp ["/", "app", "Frameworks"], []⟩

def env7 : Env :=
  ⟨[(r7, ([fw7spec], [fp ["/", "rp7"]]))], [(fp ["/", "rp7"], ["libx.dylib"])], []⟩

/-! ### Fixture: one root with one relocatable dependency (C8 witness) -/

def r8 : FsPath := fp ["/", "app", "CC"]

def a8 : FsPath := fp ["/", "opt", "libA.dylib"]

def app8 : AppInfo := ⟨r8, fp ["/", "app", "Frameworks"], []⟩

def env8 : Env := ⟨[(r8, ([a8], [])), (a8, ([], []))], [], [a8]⟩

/-- The plan the planner produces on `env8`. -/
def plan8 : Plan :=
  ⟨[⟨a8, fp ["/", "app", "Frameworks", "libA.dylib"]⟩],
   [⟨r8, a8, rpathSpec "libA.dylib"⟩],
   [⟨fp ["/", "app", "Frameworks", "libA.dylib"]⟩]⟩

/-- The single load-path update of `plan8`. -/
def upd8 : LoadPathChange := ⟨r8, a8, rpathSpec "libA.dylib"⟩

/-! ### Fixture: an `@rpath` dependency found in no search path (C9) -/

def r9 : FsPath := fp ["/", "app", "CC"]

def miss9 : FsPath := fp ["@rpath", "libmissing.dylib"]

def app9 : AppInfo := ⟨r9, fp ["/", "app", "Frameworks"], []⟩

def env9 : Env :=
  ⟨[(r9, ([miss9], [fp ["/", "rp9"]]))], [(fp ["/", "rp9"], ["liba.dylib"])], []⟩

deriving instance DecidableEq for Except

/-- Property of a planned load-path update: its target binary is either
the root binary itself or the destination of some scheduled copy (the
post-copy Frameworks location of the dependent). -/
def updOk (root : FsPath) (copies : List CopyLib) (u : LoadPathChange) : Prop :=
  u.lib = root ∨ ∃ c ∈ copies, u.lib = c.dst

/-- Property of a worklist node: the root at depth 0, or a dependency at
non-zero depth whose Frameworks destination is already the destination of
some scheduled copy. -/
def nodeOk (root : FsPath) (app : AppInfo) (copies : List CopyLib) (nd : Node) : Prop :=
  (nd.depth = 0 ∧ nd.path = root) ∨
    (nd.depth ≠ 0 ∧ ∃ c ∈ copies, app.frameworksPath.join nd.path.name = c.dst)

/-- The loop invariant of `create_relocation_plan` used for claim C8:
every accumulated update satisfies `updOk` and every worklist node
satisfies `nodeOk`. -/
def stInv (root : FsPath) (app : AppInfo) (s : PlanState) : Prop :=
  (∀ u ∈ s.updates, updOk root s.copies u) ∧
    (∀ nd ∈ s.worklist, nodeOk root app s.copies nd)

lemma updOk_mono (root : FsPath) (copies ext : List CopyLib) (u : LoadPathChange)
    (h : updOk root copies u) : updOk root (copies ++ ext) u := by
  rcases h with h | ⟨c, hc, he⟩
  · exact Or.inl h
  · exact Or.inr ⟨c, List.mem_append_left _ hc, he⟩

lemma nodeOk_mono (root : FsPath) (app : AppInfo) (copies ext : List CopyLib)
    (nd : Node) (h : nodeOk root app copies nd) : nodeOk root app (copies ++ ext) nd := by
  rcases h with h | ⟨hd, c, hc, he⟩
  · exact Or.inl h
  · exact Or.inr ⟨hd, c, List.mem_append_left _ hc, he⟩

lemma planFuel_succ (env : Env) (app : AppInfo) (n : Nat) (s : PlanState) :
    planFuel env app (n + 1) s =
      match s.worklist with
      | [] => some (Except.ok ⟨s.copies, s.updates, s.removals⟩)
      | cur :: rest =>
        match stepNode env app cur { s with worklist := rest } with
        | Except.error e => some (Except.error e)
        | Except.ok s2 => planFuel env app n s2 := rfl

lemma planFuel_step_ok (env : Env) (app : AppInfo) (n : Nat) (s s2 : PlanState)
    (cur : Node) (rest : List Node) (h : s.worklist = cur :: rest)
    (h2 : stepNode env app cur { s with worklist := rest } = Except.ok s2) :
    planFuel env app (n + 1) s = planFuel env app n s2 := by
  rw [planFuel_succ, h]
  dsimp only
  rw [h2]

lemma processSublibs_nil (env : Env) (app : AppInfo) (cur : Node) (s : PlanState) :
    processSublibs env app cur [] s = Except.ok s := rfl

lemma processSublibs_cons_err (env : Env) (app : AppInfo) (cur : Node) (sub : FsPath)
    (rest : List FsPath) (s : PlanState) (e : RelocErr)
    (hres : resolveSublib env app s.rpathMap sub = Except.error e) :
    processSublibs env app cur (sub :: rest) s = Except.error e := by
  conv_lhs => rw [processSublibs]
  rw [hres]

lemma processSublibs_cons_ok (env : Env) (app : AppInfo) (cur : Node) (sub : FsPath)
    (rest : List FsPath) (s : PlanState) (resolved : FsPath)
    (hres : resolveSublib env app s.rpathMap sub = Except.ok resolved) :
    processSublibs env app cur (sub :: rest) s =
      processSublibs env app cur rest
        { s with
          copies := s.copies ++ [⟨resolved, app.frameworksPath.join resolved.name⟩]
          updates := s.updates ++
            [⟨if minDepthForCopy ≤ cur.depth then app.frameworksPath.join cur.path.name
               else cur.path, sub, rpathSpec sub.name⟩]
          removals := s.removals ++ [⟨app.frameworksPath.join resolved.name⟩]
          worklist := ⟨resolved, cur.depth + 1⟩ :: s.worklist } := by
  conv_lhs => rw [processSublibs]
  rw [hres]
  dsimp only
  rw [if_pos (show minDepthForCopy ≤ cur.depth + 1 from Nat.succ_le_succ (Nat.zero_le cur.depth))]

lemma cyc_stepA_eq (d : Nat) (s : PlanState) :
    stepNode cycEnv cycApp ⟨cycA, d⟩ s = Except.ok
      { rpathMap := s.rpathMap
        worklist := ⟨cycB, d + 1⟩ :: s.worklist
        copies := s.copies ++ [⟨cycB, fp ["/", "app", "Frameworks", "libB.dylib"]⟩]
        updates := s.updates ++
          [⟨if minDepthForCopy ≤ d then fp ["/", "app", "Frameworks", "libA.dylib"] else cycA,
            cycB, rpathSpec "libB.dylib"⟩]
        removals := s.removals ++ [⟨fp ["/", "app", "Frameworks", "libB.dylib"]⟩] } := by
  show processSublibs cycEnv cycApp ⟨cycA, d⟩ [cycB] s = _
  rw [processSublibs_cons_ok cycEnv cycApp ⟨cycA, d⟩ cycB [] s cycB rfl]
  rfl

lemma cyc_stepB_eq (d : Nat) (s : PlanState) :
    stepNode cycEnv cycApp ⟨cycB, d⟩ s = Except.ok
      { rpathMap := s.rpathMap
        worklist := ⟨cycA, d + 1⟩ :: s.worklist
        copies := s.copies ++ [⟨cycA, fp ["/", "app", "Frameworks", "libA.dylib"]⟩]
        updates := s.updates ++
          [⟨if minDepthForCopy ≤ d then fp ["/", "app", "Frameworks", "libB.dylib"] else cycB,
            cycA, rpathSpec "libA.dylib"⟩]
        removals := s.removals ++ [⟨fp ["/", "app", "Frameworks", "libA.dylib"]⟩] } := by
  show processSublibs cycEnv cycApp ⟨cycB, d⟩ [cycA] s = _
  rw [processSublibs_cons_ok cycEnv cycApp ⟨cycB, d⟩ cycA [] s cycA rfl]
  rfl

lemma cyc_loop : ∀ (n : Nat) (s : PlanState) (d : Nat),
    s.worklist = [⟨cycA, d⟩] ∨ s.worklist = [⟨cycB, d⟩] →
    planFuel cycEnv cycApp n s = none := by
  intro n
  induction n with
  | zero => intro s d h; rfl
  | succ n ih =>
    intro s d h
    rcases h with h | h
    · rw [planFuel_step_ok cycEnv cycApp n s _ _ _ h (cyc_stepA_eq d _)]
      exact ih _ (d + 1) (Or.inr rfl)
    · rw [planFuel_step_ok cycEnv cycApp n s _ _ _ h (cyc_stepB_eq d _)]
      exact ih _ (d + 1) (Or.inl rfl)

/-- C1: the claim fails on the code.  On the cyclic dependency graph
`cycEnv` (root loads libA, libA loads libB, libB loads libA, all
relocatable) `create_relocation_plan` never terminates: for every fuel
bound the while loop is still running (the worklist never empties),
because no bookkeeping records already-scheduled resolved paths — each
revisit re-emits the copy action and re-pushes the node. -/
theorem c1_cycle_never_terminates :
    ∀ fuel : Nat, create_relocation_plan cycEnv cycApp cycRoot fuel = none := by
  intro fuel
  cases fuel with
  | zero => rfl
  | succ n =>
    rw [create_relocation_plan,
      planFuel_step_ok cycEnv cycApp n (initState cycRoot) _ _ _ rfl rfl]
    exact cyc_loop n _ 1 (Or.inl rfl)

/-- C2: the claim fails on the code.  On the diamond graph `diaEnv`
(root loads libA and libB, both load libC) the returned plan contains the
`CopyLib` action for libC twice — one per dependent that reaches it —
instead of exactly once. -/
theorem c2_shared_dependency_copied_twice :
    create_relocation_plan diaEnv diaApp diaRoot 10 = some (Except.ok diaPlan) ∧
      diaPlan.copies.count diaCopyC = 2 := by
  exact ⟨by decide, by decide⟩

/-- C3: the claim fails on the code.  Aggregating the executable plan
with two plugin plans keeps only the executable's and the *last* plugin's
strip actions (`all_rpath_removals.extend` sits outside the plugin loop),
so the first plugin's strip action `rm1` is omitted from execution, even
though the three phases themselves do run in copy / rewrite / strip
order and the copy whose source equals its destination is skipped. -/
theorem c3_first_plugin_strip_actions_dropped :
    (aggregatePlans execPlan3 [plugPlan1, plugPlan2]).removals = [rm0, rm2] ∧
      rm1 ∈ plugPlan1.removals ∧
      rm1 ∉ (aggregatePlans execPlan3 [plugPlan1, plugPlan2]).removals ∧
      executeActions env3 (aggregatePlans execPlan3 [plugPlan1, plugPlan2]) =
        [Effect.copyFile (fp ["/", "o", "lib0.dylib"]) (fp ["/", "app", "Frameworks", "lib0.dylib"]),
         Effect.copyFile (fp ["/", "o", "lib1.dylib"]) (fp ["/", "app", "Frameworks", "lib1.dylib"]),
         Effect.changeLoadPath (fp ["/", "o", "lib0.dylib"]) (rpathSpec "lib0.dylib")
           (fp ["/", "app", "CC"]),
         Effect.deleteRpath (fp ["/", "bt0"]) (fp ["/", "app", "Frameworks", "lib0.dylib"]),
         Effect.deleteRpath (fp ["/", "bt2"]) (fp ["/", "app", "Frameworks", "lib2.dylib"])] := by
  exact ⟨by decide, by decide, by decide, by decide⟩

/-- C4 counterexample: the claim fails on the code.  In `env4` the
dependency `@rpath/libS.dylib` is declared by libA, whose own (and only)
search path `/aa` contains `libS.dylib`; yet the planner resolves it to
`/rr/libS.dylib` through the *root's* search path, which entered the
accumulated mapping earlier — no copy sources from `/aa` at all. -/
theorem c4_resolution_uses_earlier_binaries_search_path :
    create_relocation_plan env4 app4 r4 10 = some (Except.ok plan4) ∧
      (⟨fp ["/", "rr", "libS.dylib"],
        fp ["/", "app", "Frameworks", "libS.dylib"]⟩ : CopyLib) ∈ plan4.copies ∧
      plan4.copies.all (fun c => c.src != fp ["/", "aa", "libS.dylib"]) = true := by
  exact ⟨by decide, by decide, by decide⟩

/-- C5 counterexample: the claim fails on the code.  Two distinct sources
`/e1/libdup.dylib` and `/e2/libdup.dylib` map to the same destination
filename, yet planning succeeds (no `AmbiguousDependencyError` exists in
the program) and returns two copy actions instead of zero. -/
theorem c5_name_collision_not_detected :
    create_relocation_plan env5 app5 r5 10 = some (Except.ok plan5) ∧
      plan5.copies.length = 2 := by
  exact ⟨by decide, by decide⟩

/-- C5 amended: when two distinct source libraries share a destination
filename, planning succeeds and emits one `CopyLib` action per source,
both targeting the same destination — the later copy silently overwrites
the earlier one at execution time. -/
theorem c5_collision_emits_both_copy_actions :
    create_relocation_plan env5 app5 r5 10 = some (Except.ok plan5) ∧
      (⟨p5a, fp ["/", "app", "Frameworks", "libdup.dylib"]⟩ : CopyLib) ∈ plan5.copies ∧
      (⟨p5b, fp ["/", "app", "Frameworks", "libdup.dylib"]⟩ : CopyLib) ∈ plan5.copies ∧
      p5a ≠ p5b := by
  exact ⟨by decide, by decide, by decide, by decide⟩

/-- C6 counterexample: the claim fails on the code.  `libP.dylib` is
listed in `libs_in_app_rpath`, but because the root names it by the
absolute specifier `/ext/libP.dylib` (not `@rpath/...`), the
already-present check of `list_sublibs_to_relocate` does not fire: libP
is copied and its own dependency libQ is traversed and copied. -/
theorem c6_absolute_specifier_of_present_library_still_relocated :
    create_relocation_plan env6 app6 r6 10 = some (Except.ok plan6) ∧
      "libP.dylib" ∈ app6.libsInRpath ∧
      (⟨p6, fp ["/", "app", "Frameworks", "libP.dylib"]⟩ : CopyLib) ∈ plan6.copies ∧
      (⟨q6, fp ["/", "app", "Frameworks", "libQ.dylib"]⟩ : CopyLib) ∈ plan6.copies := by
  exact ⟨by decide, by decide, by decide, by decide⟩

/-- C6 amended: only a search-path-relative (`@rpath`) specifier whose
second component is listed in `libs_in_app_rpath` is skipped: in `env6b`
the same already-present libP, declared as `@rpath/libP.dylib`, yields an
empty plan, and libP's own dependency (libQ, visible in its load
commands) is not traversed. -/
theorem c6_rpath_specifier_of_present_library_skipped :
    create_relocation_plan env6b app6 r6 10 = some (Except.ok ⟨[], [], []⟩) ∧
      (getLibrary env6b (fp ["/", "rp6", "libP.dylib"])).1 = [q6] := by
  exact ⟨by decide, by decide⟩

/-- C7 counterexample: the claim fails on the code.  The framework-style
dependency `@rpath/QtGui.framework/Versions/5/QtGui` survives the
relocatable partition (it is not a system library and its framework
folder is not already bundled), and the planner then dies on the
two-component assertion `assert len(sublib.parts) == 2`. -/
theorem c7_framework_dependency_fails_two_part_assertion :
    relocLib app7.libsInRpath fw7spec = true ∧
      create_relocation_plan env7 app7 r7 10 =
        some (Except.error (RelocErr.assertTwoParts fw7spec)) := by
  exact ⟨by decide, by decide⟩

lemma find?_first_in_append (p : FsPath × List String → Bool) (x : FsPath × List String)
    (m2 : List (FsPath × List String)) :
    ∀ m1 : List (FsPath × List String), (∀ e ∈ m1, p e = false) → p x = true →
      List.find? p (m1 ++ x :: m2) = some x := by
  intro m1
  induction m1 with
  | nil =>
    intro _ hx
    exact List.find?_cons_of_pos _ hx
  | cons a t ih =>
    intro h hx
    rw [List.cons_append,
      List.find?_cons_of_neg _ (by rw [h a (List.mem_cons_self a t)]; exact Bool.false_ne_true),
      ih (fun e he => h e (List.mem_cons_of_mem _ he)) hx]

/-- C4 amended: `@rpath` resolution performs first-match over the
*accumulated* search-path mapping (all resolvable search paths of every
binary popped so far, in first-insertion order), not over the declaring
binary's own declared search paths: the first entry whose listing
contains the specifier's trailing filename wins, whichever binary
contributed it. -/
theorem c4_first_match_over_accumulated_search_paths
    (m1 m2 : List (FsPath × List String)) (d : FsPath) (l : List String) (nm : String)
    (h1 : ∀ e ∈ m1, nm ∉ e.2) (h2 : nm ∈ l) :
    resolveRpathSublib (m1 ++ (d, l) :: m2) (fp ["@rpath", nm]) =
      Except.ok (d.join nm) := by
  have hgd : (fp ["@rpath", nm]).parts.getD 1 "" = nm := rfl
  have hfind : List.find? (fun e => decide ((fp ["@rpath", nm]).parts.getD 1 "" ∈ e.2))
      (m1 ++ (d, l) :: m2) = some (d, l) := by
    refine find?_first_in_append _ _ _ m1 ?_ ?_
    · intro e he
      rw [hgd]
      exact decide_eq_false (h1 e he)
    · rw [hgd]
      exact decide_eq_true h2
  cases hm : m1 ++ (d, l) :: m2 with
  | nil => exact absurd hm (by simp)
  | cons a t =>
    rw [hm] at hfind
    simp only [resolveRpathSublib]
    rw [if_pos (show (fp ["@rpath", nm]).parts.length = 2 from rfl), hfind]
    rfl

/-- Witness for C4's amended theorem: with the accumulated mapping
holding the root's `/rr` before libA's own `/aa`, both containing
`libS.dylib`, resolution returns `/rr/libS.dylib`. -/
theorem c4_first_match_over_accumulated_search_paths_witness :
    resolveRpathSublib [(fp ["/", "rr"], ["libS.dylib"]), (fp ["/", "aa"], ["libS.dylib"])]
        (fp ["@rpath", "libS.dylib"]) = Except.ok ((fp ["/", "rr"]).join "libS.dylib") :=
  c4_first_match_over_accumulated_search_paths [] [(fp ["/", "aa"], ["libS.dylib"])]
    (fp ["/", "rr"]) ["libS.dylib"] "libS.dylib" (by simp) (by simp)

/-- C7 amended: the two-component assertion fires exactly when the
accumulated search-path mapping is non-empty and the `@rpath` specifier
does not have exactly two components — so it does fail for a
framework-style relocatable dependency (more than two components), and
cannot fail only for plain two-component specifiers. -/
theorem c7_two_part_assertion_characterization
    (m : List (FsPath × List String)) (sub : FsPath) :
    resolveRpathSublib m sub = Except.error (RelocErr.assertTwoParts sub) ↔
      m ≠ [] ∧ sub.parts.length ≠ 2 := by
  cases m with
  | nil => simp [resolveRpathSublib]
  | cons a t =>
    by_cases hl : sub.parts.length = 2
    · simp only [resolveRpathSublib, if_pos hl]
      cases hf : List.find? (fun e => decide (sub.parts.getD 1 "" ∈ e.2)) (a :: t) <;>
        simp [hl]
    · simp [resolveRpathSublib, hl]

/-- Witness for C7's amended theorem at the five-component framework
specifier of `env7`. -/
theorem c7_two_part_assertion_characterization_witness :
    resolveRpathSublib [(fp ["/", "rp7"], ["libx.dylib"])] fw7spec =
      Except.error (RelocErr.assertTwoParts fw7spec) :=
  (c7_two_part_assertion_characterization [(fp ["/", "rp7"], ["libx.dylib"])] fw7spec).mpr
    (by simp [fw7spec, fp])

/-- C9: when a two-component `@rpath` specifier's filename is listed in
no entry of the accumulated search-path mapping, resolution fails with
the error naming the specifier (first conjunct); and on the concrete
`env9`, where `@rpath/libmissing.dylib` is in no search path, the whole
planner returns that error — hence zero actions, and planning performed
no filesystem mutation (the planner only reads). -/
theorem c9_unresolved_dependency_aborts_planning :
    (∀ (m : List (FsPath × List String)) (sub : FsPath),
        sub.parts.length = 2 →
        (∀ e ∈ m, sub.parts.getD 1 "" ∉ e.2) →
        resolveRpathSublib m sub = Except.error (RelocErr.unresolved sub)) ∧
      create_relocation_plan env9 app9 r9 10 =
        some (Except.error (RelocErr.unresolved miss9)) := by
  constructor
  · intro m sub hl hm
    cases m with
    | nil => rfl
    | cons a t =>
      simp only [resolveRpathSublib, if_pos hl]
      rw [List.find?_eq_none.mpr (fun e he => by simpa using hm e he)]
  · decide

/-- Witness for C9's general conjunct: `@rpath/libmissing.dylib` against
a mapping whose only listing lacks that filename. -/
theorem c9_unresolved_witness :
    resolveRpathSublib [(fp ["/", "rp9"], ["liba.dylib"])] miss9 =
      Except.error (RelocErr.unresolved miss9) :=
  c9_unresolved_dependency_aborts_planning.1 [(fp ["/", "rp9"], ["liba.dylib"])] miss9
    (by simp [miss9, fp]) (by simp [miss9, fp])

/-- C10: a dependency is classified as a system library exactly when its
immediate parent directory is `/usr/lib` or its path string starts with
"/System" (first conjunct); system libraries never survive the
relocatable filter (second conjunct); and `/usr/lib/swift/...`, whose
parent is `/usr/lib/swift`, is not a system library and is kept as
relocatable (last two conjuncts). -/
theorem c10_system_lib_characterization :
    (∀ lib : FsPath, is_system_lib lib = true ↔
        (lib.parent = fp ["/", "usr", "lib"] ∨ strHasPre "/System" lib.toStr = true)) ∧
      (∀ (libs : List FsPath) (names : List String) (lib : FsPath),
        is_system_lib lib = true → lib ∉ list_sublibs_to_relocate libs names) ∧
      is_system_lib (fp ["/", "usr", "lib", "swift", "libswiftCore.dylib"]) = false ∧
      list_sublibs_to_relocate [fp ["/", "usr", "lib", "swift", "libswiftCore.dylib"]] [] =
        [fp ["/", "usr", "lib", "swift", "libswiftCore.dylib"]] := by
  refine ⟨?_, ?_, by decide, by decide⟩
  · intro lib
    by_cases h1 : lib.parent = fp ["/", "usr", "lib"]
    · simp [is_system_lib, fp, h1]
    · by_cases h2 : strHasPre "/System" lib.toStr = true
      · simp [is_system_lib, fp, h1, h2]
      · simp [is_system_lib, fp, h1, h2]
  · intro libs names lib h hmem
    have hrel : relocLib names lib = true :=
      List.of_mem_filter (by simpa [list_sublibs_to_relocate] using hmem)
    rw [relocLib, if_pos h] at hrel
    exact Bool.false_ne_true hrel

/-- Witness for C10's universally quantified conjuncts: `/usr/lib/libz.dylib`
is a system library and is excluded from the relocatable list. -/
theorem c10_witness :
    fp ["/", "usr", "lib", "libz.dylib"] ∉
      list_sublibs_to_relocate [fp ["/", "usr", "lib", "libz.dylib"]] [] :=
  c10_system_lib_characterization.2.1 [fp ["/", "usr", "lib", "libz.dylib"]] []
    (fp ["/", "usr", "lib", "libz.dylib"]) (by decide)

lemma processSublibs_inv (env : Env) (app : AppInfo) (root : FsPath) (cur : Node) :
    ∀ (subs : List FsPath) (s s2 : PlanState),
      processSublibs env app cur subs s = Except.ok s2 →
      stInv root app s → nodeOk root app s.copies cur →
      stInv root app s2 := by
  intro subs
  induction subs with
  | nil =>
    intro s s2 h hs _
    rw [processSublibs_nil] at h
    cases h
    exact hs
  | cons sub rest ih =>
    intro s s2 h hs hcur
    cases hres : resolveSublib env app s.rpathMap sub with
    | error e =>
      rw [processSublibs_cons_err env app cur sub rest s e hres] at h
      cases h
    | ok resolved =>
      rw [processSublibs_cons_ok env app cur sub rest s resolved hres] at h
      set cNew : CopyLib := ⟨resolved, app.frameworksPath.join resolved.name⟩ with hc
      refine ih _ s2 h ⟨?_, ?_⟩ (nodeOk_mono root app s.copies [cNew] cur hcur)
      · intro u hu
        rcases List.mem_append.mp hu with hu | hu
        · exact updOk_mono root s.copies [cNew] u (hs.1 u hu)
        · have hu1 : u = ⟨if minDepthForCopy ≤ cur.depth then
              app.frameworksPath.join cur.path.name else cur.path,
              sub, rpathSpec sub.name⟩ := List.mem_singleton.mp hu
          by_cases hd : minDepthForCopy ≤ cur.depth
          · rcases hcur with ⟨hd0, _⟩ | ⟨_, c, hcm, hce⟩
            · rw [hd0] at hd
              exact absurd hd (by simp [minDepthForCopy])
            · refine Or.inr ⟨c, List.mem_append_left _ hcm, ?_⟩
              rw [hu1]
              simpa [hd] using hce
          · have hd0 : cur.depth = 0 := by
              rcases Nat.eq_zero_or_pos cur.depth with h0 | h0
              · exact h0
              · exact absurd h0 (by simpa [minDepthForCopy] using hd)
            rcases hcur with ⟨_, hpath⟩ | ⟨hne, _⟩
            · refine Or.inl ?_
              rw [hu1]
              simpa [hd] using hpath
            · exact absurd hd0 hne
      · intro nd hnd
        rcases List.mem_cons.mp hnd with hnd | hnd
        · refine Or.inr ⟨?_, cNew, List.mem_append_right _ (List.mem_singleton_self _), ?_⟩
          · rw [hnd]
            exact Nat.succ_ne_zero _
          · rw [hnd, hc]
        · exact nodeOk_mono root app s.copies [cNew] nd (hs.2 nd hnd)

lemma stepNode_inv (env : Env) (app : AppInfo) (root : FsPath) (cur : Node)
    (s s2 : PlanState) (h : stepNode env app cur s = Except.ok s2)
    (hs : stInv root app s) (hcur : nodeOk root app s.copies cur) :
    stInv root app s2 := by
  exact processSublibs_inv env app root cur _ _ s2 h hs hcur

lemma planFuel_inv (env : Env) (app : AppInfo) (root : FsPath) :
    ∀ (n : Nat) (s : PlanState) (plan : Plan),
      planFuel env app n s = some (Except.ok plan) → stInv root app s →
      ∀ u ∈ plan.updates, updOk root plan.copies u := by
  intro n
  induction n with
  | zero =>
    intro s plan h
    cases h
  | succ n ih =>
    intro s plan h hs
    rw [planFuel_succ] at h
    cases hw : s.worklist with
    | nil =>
      rw [hw] at h
      dsimp only at h
      cases h
      exact hs.1
    | cons cur rest =>
      rw [hw] at h
      dsimp only at h
      cases hstep : stepNode env app cur { s with worklist := rest } with
      | error e =>
        rw [hstep] at h
        cases h
      | ok s2 =>
        rw [hstep] at h
        refine ih s2 plan h ?_
        refine stepNode_inv env app root cur _ s2 hstep ⟨hs.1, ?_⟩ ?_
        · intro nd hnd
          exact hs.2 nd (by rw [hw]; exact List.mem_cons_of_mem _ hnd)
        · exact hs.2 cur (by rw [hw]; exact List.mem_cons_self _ _)

/-- C8: for every plan the planner manages to return, every
`LoadPathChange` action targets either the root binary's own path (the
dependent at depth 0, never copied) or the destination of some scheduled
copy — the post-copy Frameworks location of the copied dependent — never
the pre-copy source location of a copied library. -/
theorem c8_rewrites_target_root_or_copy_destination
    (env : Env) (app : AppInfo) (root : FsPath) (fuel : Nat) (plan : Plan)
    (h : create_relocation_plan env app root fuel = some (Except.ok plan)) :
    ∀ u ∈ plan.updates, u.lib = root ∨ ∃ c ∈ plan.copies, u.lib = c.dst := by
  have hinit : stInv root app (initState root) := by
    constructor
    · intro u hu
      cases hu
    · intro nd hnd
      rcases List.mem_singleton.mp hnd with h0
      rw [h0]
      exact Or.inl ⟨rfl, rfl⟩
  exact planFuel_inv env app root fuel (initState root) plan h hinit

/-- Witness for C8 on the concrete bundle `env8`: the single rewrite of
`plan8` targets the root binary or a copy destination. -/
theorem c8_rewrites_witness :
    upd8.lib = r8 ∨ ∃ c ∈ plan8.copies, upd8.lib = c.dst :=
  c8_rewrites_target_root_or_copy_destination env8 app8 r8 5 plan8 (by decide) upd8
    (by decide)
